import Mathlib

/-!
Verification of the single-node SAR (Smart Adaptive Recommendations) engine
described in `notebooks/02_model/sar_deep_dive.ipynb`.  The notebook gives the
algorithm (co-occurrence matrix, similarity rescaling, time-decayed affinity,
score = A × S, remove-seen masking, top-K extraction); the referenced
implementation file `reco_utils/recommender/sar/sar_singlenode.py` is not part
of this snapshot, so the engine's operational parts are modelled from the
design document, while the numeric formulas are taken verbatim from the
notebook's §1.1 and §1.2.
-/

namespace SAR

/-- An interaction event, following the notebook schema
    `<User ID>, <Item ID>, <Time>` with the rating used as the event weight.
    Identifiers are modelled as naturals, weights and timestamps as rationals. -/
structure Interaction where
  user : Nat
  item : Nat
  weight : ℚ
  timestamp : ℚ
deriving DecidableEq

/-- Distinct users observed in a training set. -/
def users (d : List Interaction) : Finset Nat :=
  (d.map Interaction.user).toFinset

/-- Distinct items observed in a training set, as a finite set. -/
def items (d : List Interaction) : Finset Nat :=
  (d.map Interaction.item).toFinset

/-- Distinct items observed in a training set, in first-occurrence order. -/
def itemList (d : List Interaction) : List Nat :=
  (d.map Interaction.item).dedup

/-- Distinct users observed in a training set, in first-occurrence order. -/
def userList (d : List Interaction) : List Nat :=
  (d.map Interaction.user).dedup

/-- `seen d u i` holds when user `u` has at least one training interaction
    with item `i` in `d`. -/
def seen (d : List Interaction) (u i : Nat) : Bool :=
  d.any fun e => e.user == u && e.item == i

/-- Modelled from the spec: the Co-occurrence Engine of `sar_singlenode.py` is
    absent from the snapshot.  Following §4.2 of the design ("`C[i,i]` counts
    the number of distinct users who touched item i") and notebook §1.1,
    `cooccur d i j` is the number of distinct users whose interaction set
    contains both item `i` and item `j`. -/
def cooccur (d : List Interaction) (i j : Nat) : ℕ :=
  ((users d).filter fun u => seen d u i ∧ seen d u j).card

/-- The available similarity metrics of notebook §1.1: `Jaccard`, `lift`,
    `counts`. -/
inductive SimilarityType where
  | jaccard
  | lift
  | counts
deriving DecidableEq

/-- Similarity rescaling from notebook §1.1, transcribed verbatim over ℚ:
    `Jaccard`: `s_ij = c_ij / (c_ii + c_jj − c_ij)`,
    `lift`: `s_ij = c_ij / (c_ii × c_jj)`,
    `counts`: `s_ij = c_ij`.
    Rational division by zero is zero, which realizes the design's policy that
    a zero denominator resolves to zero similarity. -/
def similarity (metric : SimilarityType) (C : Nat → Nat → ℚ) (i j : Nat) : ℚ :=
  match metric with
  | .jaccard => C i j / (C i i + C j j - C i j)
  | .lift => C i j / (C i i * C j j)
  | .counts => C i j

/-- The co-occurrence matrix as a rational-valued matrix, as consumed by the
    Similarity Transform. -/
def cooccurQ (d : List Interaction) (i j : Nat) : ℚ :=
  (cooccur d i j : ℚ)

/-- The scenario co-occurrence matrix from the design's testable properties:
    diagonal entries 2, off-diagonal entries 1. -/
def scenarioC (i j : Nat) : ℚ :=
  if i = j then 2 else 1

/-- The all-zero co-occurrence matrix (no item ever observed). -/
def zeroC (_ _ : Nat) : ℚ :=
  0

/-- Per-event affinity contribution, transcribed from notebook §1.2:
    `w_k · e^{−log(2)·(t0 − t_k)/T}`. -/
noncomputable def affinityContribution (w t0 tk T : ℝ) : ℝ :=
  w * Real.exp (-Real.log 2 * ((t0 - tk) / T))

/-- The design's equivalent base-2 phrasing of the per-event contribution:
    `w_k · 2^{−(t0 − t_k)/T}`. -/
noncomputable def affinityContributionBase2 (w t0 tk T : ℝ) : ℝ :=
  w * (2 : ℝ) ^ (-((t0 - tk) / T))

/-- Configuration of the engine, following the notebook's constructor call
    `SARSingleNode(remove_seen=..., similarity_type=..., ...)` together with
    the top-K count. -/
structure SARConfig where
  similarityType : SimilarityType
  removeSeen : Bool
  topK : Nat
deriving DecidableEq

/-- Modelled from the spec: `SARSingleNode.fit` of `sar_singlenode.py` is
    absent from the snapshot; per the design, a fit call stores the training
    interactions and configuration from which the matrices are derived, fully
    replacing any prior state. -/
structure FittedModel where
  data : List Interaction
  cfg : SARConfig
deriving DecidableEq

/-- Fitting the model on a training set. -/
def fit (cfg : SARConfig) (d : List Interaction) : FittedModel :=
  ⟨d, cfg⟩

/-- Modelled from the spec: the Affinity Engine aggregation with decay
    disabled — `A[u,i] = Σ over all events k for (u,i) of w_k` (the notebook's
    simplification "setting the half-life parameter T to infinity"). -/
def affinity (d : List Interaction) (u i : Nat) : ℚ :=
  ((d.filter fun e => e.user == u && e.item == i).map Interaction.weight).sum

/-- The matrices produced by one fit call, as named in the design's
    round-trip property: co-occurrence C, similarity S, affinity A. -/
structure FitResult where
  C : Nat → Nat → ℕ
  S : Nat → Nat → ℚ
  A : Nat → Nat → ℚ

/-- The full numerical output of a fit call on a training set. -/
def fitMatrices (cfg : SARConfig) (d : List Interaction) : FitResult :=
  ⟨cooccur d, similarity cfg.similarityType (cooccurQ d), affinity d⟩

/-- Modelled from the spec: the Scorer's `R = A × S`, the matrix product
    summed over the observed item vocabulary. -/
def score (m : FittedModel) (u i : Nat) : ℚ :=
  ∑ j ∈ items m.data,
    affinity m.data u j * similarity m.cfg.similarityType (cooccurQ m.data) j i

/-- Modelled from the spec: the ranking candidates for a user — all observed
    items, minus the user's seen items when `remove_seen` is enabled. -/
def candidates (m : FittedModel) (u : Nat) : List Nat :=
  if m.cfg.removeSeen then (itemList m.data).filter fun i => !seen m.data u i
  else itemList m.data

/-- The ranking order used for top-K extraction for user `u`: the higher score
    wins, ties broken by the lower item index (the deterministic tie-break the
    design asks for). -/
def rankLE (m : FittedModel) (u : Nat) (i j : Nat) : Bool :=
  decide (score m u j < score m u i ∨ (score m u i = score m u j ∧ i ≤ j))

/-- Modelled from the spec: top-K extraction — sort the candidates by
    descending score (ties by ascending item index) and keep the first K. -/
def topKItems (m : FittedModel) (u : Nat) : List Nat :=
  ((candidates m u).mergeSort (rankLE m u)).take m.cfg.topK

/-- Modelled from the spec: `SARSingleNode.recommend_k_items` — one output row
    `(user, item, score)` per surfaced top-K result, grouped by user. -/
def recommend_k_items (m : FittedModel) : List (Nat × Nat × ℚ) :=
  (userList m.data).flatMap fun u =>
    (topKItems m u).map fun i => (u, i, score m u i)

/-- The error taxonomy of the design (§7), restricted to the cases the claims
    exercise. -/
inductive SARError where
  | emptyModel
  | invalidMetric
deriving DecidableEq

/-- Modelled from the spec: engine state — `none` is the Unfit state, `some`
    a fitted model (the Fit state). -/
structure Engine where
  fitted : Option FittedModel
deriving DecidableEq

/-- A fresh engine: the Unfit state, before any fit call has completed. -/
def Engine.initial : Engine :=
  ⟨none⟩

/-- Fitting transitions the engine to the Fit state, replacing any prior
    model wholesale. -/
def Engine.runFit (_e : Engine) (cfg : SARConfig) (d : List Interaction) :
    Engine :=
  ⟨some (fit cfg d)⟩

/-- Modelled from the spec: `recommend` is only valid in the Fit state; in
    the Unfit state it fails with `EmptyModel` and produces no output. -/
def Engine.recommend (e : Engine) : Except SARError (List (Nat × Nat × ℚ)) :=
  match e.fitted with
  | none => .error .emptyModel
  | some m => .ok (recommend_k_items m)

/-- A concrete one-row training set: the design's scenario of a single user
    and a single item. -/
def d0 : List Interaction :=
  [⟨0, 0, 1, 0⟩]

/-- A concrete configuration: jaccard similarity, remove-seen enabled, K = 5. -/
def cfg0 : SARConfig :=
  ⟨.jaccard, true, 5⟩

lemma cooccur_comm (d : List Interaction) (i j : Nat) :
    cooccur d i j = cooccur d j i := by
  unfold cooccur
  congr 1
  exact Finset.filter_congr fun u _ => by
    constructor <;> exact fun h => ⟨h.2, h.1⟩

lemma cooccur_le_diag_left (d : List Interaction) (i j : Nat) :
    cooccur d i j ≤ cooccur d i i := by
  unfold cooccur
  apply Finset.card_le_card
  intro u hu
  simp only [Finset.mem_filter] at hu ⊢
  exact ⟨hu.1, hu.2.1, hu.2.1⟩

lemma cooccur_le_diag_right (d : List Interaction) (i j : Nat) :
    cooccur d i j ≤ cooccur d j j := by
  unfold cooccur
  apply Finset.card_le_card
  intro u hu
  simp only [Finset.mem_filter] at hu ⊢
  exact ⟨hu.1, hu.2.2, hu.2.2⟩

/-- C4: the co-occurrence matrix built by the Co-occurrence Engine is
    symmetric: `C[i,j] = C[j,i]` for every pair of item indices. -/
theorem cooccurrence_symmetric (d : List Interaction) (i j : Nat) :
    cooccur d i j = cooccur d j i :=
  cooccur_comm d i j

/-- C5: the diagonal of the co-occurrence matrix dominates:
    `C[i,i] ≥ C[i,j]` and `C[j,j] ≥ C[i,j]` for every pair of item indices. -/
theorem cooccurrence_diagonal_dominant (d : List Interaction) (i j : Nat) :
    cooccur d i j ≤ cooccur d i i ∧ cooccur d i j ≤ cooccur d j j :=
  ⟨cooccur_le_diag_left d i j, cooccur_le_diag_right d i j⟩

/-- C3: the similarity transform computes, for every pair `(i,j)`:
    under `counts` the raw co-occurrence; under `jaccard`
    `C[i,j] / (C[i,i] + C[j,j] − C[i,j])` with value 0 when the denominator is
    zero; under `lift` `C[i,j] / (C[i,i] × C[j,j])` with value 0 when either
    diagonal term is zero. -/
theorem similarity_transform_values (C : Nat → Nat → ℚ) (i j : Nat) :
    similarity .counts C i j = C i j ∧
    (C i i + C j j - C i j = 0 → similarity .jaccard C i j = 0) ∧
    (C i i + C j j - C i j ≠ 0 →
      similarity .jaccard C i j = C i j / (C i i + C j j - C i j)) ∧
    ((C i i = 0 ∨ C j j = 0) → similarity .lift C i j = 0) ∧
    (C i i * C j j ≠ 0 → similarity .lift C i j = C i j / (C i i * C j j)) := by
  refine ⟨rfl, ?_, fun _ => rfl, ?_, fun _ => rfl⟩
  · intro h
    show C i j / (C i i + C j j - C i j) = 0
    rw [h, div_zero]
  · intro h
    show C i j / (C i i * C j j) = 0
    rcases h with h | h
    · rw [h, zero_mul, div_zero]
    · rw [h, mul_zero, div_zero]

/-- Witness for C3 at concrete matrices: the design's scenario matrix (where
    `jaccard` gives `1/(2+2−1) = 1/3`) and the zero matrix (where both
    degenerate branches return 0). -/
theorem similarity_transform_values_witness :
    similarity .counts scenarioC 0 1 = scenarioC 0 1 ∧
    similarity .jaccard scenarioC 0 1 =
      scenarioC 0 1 / (scenarioC 0 0 + scenarioC 1 1 - scenarioC 0 1) ∧
    similarity .jaccard zeroC 0 1 = 0 ∧
    similarity .lift zeroC 0 1 = 0 :=
  ⟨(similarity_transform_values scenarioC 0 1).1,
    (similarity_transform_values scenarioC 0 1).2.2.1 (by norm_num [scenarioC]),
    (similarity_transform_values zeroC 0 1).2.1 (by norm_num [zeroC]),
    (similarity_transform_values zeroC 0 1).2.2.2.1
      (Or.inl (by norm_num [zeroC]))⟩

/-- C6: on any co-occurrence matrix produced by the Co-occurrence Engine, the
    `jaccard` similarity lies in `[0, 1]` for every pair of item indices. -/
theorem jaccard_similarity_bounds (d : List Interaction) (i j : Nat) :
    0 ≤ similarity .jaccard (cooccurQ d) i j ∧
    similarity .jaccard (cooccurQ d) i j ≤ 1 := by
  have hca : (cooccur d i j : ℚ) ≤ (cooccur d i i : ℚ) := by
    exact_mod_cast cooccur_le_diag_left d i j
  have hcb : (cooccur d i j : ℚ) ≤ (cooccur d j j : ℚ) := by
    exact_mod_cast cooccur_le_diag_right d i j
  have hc0 : (0 : ℚ) ≤ (cooccur d i j : ℚ) := by positivity
  show 0 ≤ cooccurQ d i j / (cooccurQ d i i + cooccurQ d j j - cooccurQ d i j) ∧
    cooccurQ d i j / (cooccurQ d i i + cooccurQ d j j - cooccurQ d i j) ≤ 1
  simp only [cooccurQ]
  by_cases h :
      (cooccur d i i : ℚ) + (cooccur d j j : ℚ) - (cooccur d i j : ℚ) = 0
  · rw [h, div_zero]
    norm_num
  · have hqpos :
        0 < (cooccur d i i : ℚ) + (cooccur d j j : ℚ) - (cooccur d i j : ℚ) :=
      lt_of_le_of_ne (by linarith) (Ne.symm h)
    exact ⟨div_nonneg hc0 hqpos.le, (div_le_one hqpos).mpr (by linarith)⟩

lemma contribution_eq_base2 (w t0 tk T : ℝ) :
    affinityContribution w t0 tk T = affinityContributionBase2 w t0 tk T := by
  unfold affinityContribution affinityContributionBase2
  rw [Real.rpow_def_of_pos (by norm_num : (0 : ℝ) < 2)]
  congr 2
  ring

lemma decay_at_half_life (t0 T : ℝ) (hT : T ≠ 0) :
    Real.exp (-Real.log 2 * ((t0 - (t0 - T)) / T)) = 1 / 2 := by
  have h1 : (t0 - (t0 - T)) / T = 1 := by
    field_simp
  rw [h1, mul_one, Real.exp_neg, Real.exp_log (by norm_num : (0 : ℝ) < 2)]
  norm_num

/-- C7: with half-life `T > 0`, an event at timestamp `t0 − T` contributes
    exactly half the affinity weight of an identical event at `t0`, in both
    the notebook's exp/log(2) form and the base-2 form. -/
theorem time_decay_half_life (w t0 T : ℝ) (hT : 0 < T) :
    affinityContribution w t0 (t0 - T) T = w / 2 ∧
    affinityContributionBase2 w t0 (t0 - T) T = w / 2 := by
  have h := decay_at_half_life t0 T (ne_of_gt hT)
  constructor
  · unfold affinityContribution
    rw [h]
    ring
  · rw [← contribution_eq_base2]
    unfold affinityContribution
    rw [h]
    ring

/-- Witness for C7 at `w = 1`, `t0 = 0`, `T = 1`. -/
theorem time_decay_half_life_witness :
    (0 : ℝ) < 1 ∧ affinityContribution 1 0 (0 - 1) 1 = 1 / 2 :=
  ⟨by norm_num, (time_decay_half_life 1 0 1 (by norm_num)).1⟩

/-- C10: the notebook's exp/log(2) decay formula and the base-2 half-life
    formula define the same per-event contribution, for every weight,
    timestamps and half-life. -/
theorem decay_formulations_agree (w t0 tk T : ℝ) :
    affinityContribution w t0 tk T = affinityContributionBase2 w t0 tk T :=
  contribution_eq_base2 w t0 tk T

lemma rankLE_total (m : FittedModel) (u : Nat) (a b : Nat) :
    rankLE m u a b || rankLE m u b a := by
  simp only [rankLE, Bool.or_eq_true, decide_eq_true_eq]
  rcases lt_trichotomy (score m u a) (score m u b) with h | h | h
  · exact Or.inr (Or.inl h)
  · rcases Nat.le_total a b with hab | hab
    · exact Or.inl (Or.inr ⟨h, hab⟩)
    · exact Or.inr (Or.inr ⟨h.symm, hab⟩)
  · exact Or.inl (Or.inl h)

lemma rankLE_trans (m : FittedModel) (u : Nat) (a b c : Nat) :
    rankLE m u a b → rankLE m u b c → rankLE m u a c := by
  simp only [rankLE, decide_eq_true_eq]
  intro hab hbc
  rcases hab with hab | ⟨hab, hab'⟩ <;> rcases hbc with hbc | ⟨hbc, hbc'⟩
  · exact Or.inl (by linarith)
  · exact Or.inl (by linarith)
  · exact Or.inl (by linarith)
  · exact Or.inr ⟨by linarith, Nat.le_trans hab' hbc'⟩

lemma rankLE_score_le (m : FittedModel) (u : Nat) {a b : Nat}
    (h : rankLE m u a b) : score m u b ≤ score m u a := by
  simp only [rankLE, decide_eq_true_eq] at h
  rcases h with h | ⟨h, -⟩
  · exact le_of_lt h
  · exact le_of_eq h.symm

lemma mem_topKItems_mem_candidates (m : FittedModel) (u i : Nat)
    (h : i ∈ topKItems m u) : i ∈ candidates m u := by
  unfold topKItems at h
  have h1 := List.mem_of_mem_take h
  rwa [List.mem_mergeSort] at h1

/-- C1: with `remove_seen` enabled, no (user, item) pair present in the
    training interactions appears in that user's recommendation output. -/
theorem remove_seen_excludes_training_pairs (cfg : SARConfig)
    (d : List Interaction) (u i : Nat) (s : ℚ)
    (hrs : cfg.removeSeen = true) (hseen : seen d u i = true) :
    (u, i, s) ∉ recommend_k_items (fit cfg d) := by
  intro hmem
  unfold recommend_k_items at hmem
  rw [List.mem_flatMap] at hmem
  obtain ⟨u', _, hmem⟩ := hmem
  rw [List.mem_map] at hmem
  obtain ⟨i', hi', heq⟩ := hmem
  have hu : u' = u := congrArg Prod.fst heq
  have hi : i' = i := congrArg (fun p => p.2.1) heq
  subst hu
  subst hi
  have hc := mem_topKItems_mem_candidates (fit cfg d) u' i' hi'
  unfold candidates fit at hc
  simp only [hrs, if_true] at hc
  rw [List.mem_filter] at hc
  rw [hseen] at hc
  exact absurd hc.2 (by simp)

/-- Witness for C1: the design's scenario of a single user and a single item
    with remove-seen enabled and K = 5 — the lone training pair never appears
    in the output. -/
theorem remove_seen_excludes_training_pairs_witness :
    cfg0.removeSeen = true ∧ seen d0 0 0 = true ∧
    (0, 0, (0 : ℚ)) ∉ recommend_k_items (fit cfg0 d0) :=
  ⟨rfl, rfl, remove_seen_excludes_training_pairs cfg0 d0 0 0 0 rfl rfl⟩

/-- C2: for every fitted model and user, the user's output rows are ordered by
    non-increasing score, and the number of rows is exactly
    `min K (number of eligible candidates)` — at most K, and fewer than K only
    when fewer than K candidates exist. -/
theorem topk_sorted_and_bounded (cfg : SARConfig) (d : List Interaction)
    (u : Nat) :
    (topKItems (fit cfg d) u).Pairwise
      (fun i j => score (fit cfg d) u j ≤ score (fit cfg d) u i) ∧
    (topKItems (fit cfg d) u).length =
      min cfg.topK (candidates (fit cfg d) u).length := by
  constructor
  · have hs :=
      List.sorted_mergeSort (rankLE_trans (fit cfg d) u)
        (rankLE_total (fit cfg d) u) (candidates (fit cfg d) u)
    have ht := List.Pairwise.sublist (List.take_sublist cfg.topK _) hs
    exact ht.imp fun hab => rankLE_score_le (fit cfg d) u hab
  · simp [topKItems, List.length_take, List.length_mergeSort, fit]

/-- C8: invoking `recommend` on an engine in the Unfit state fails with the
    `EmptyModel` error, and no recommendation output is ever produced. -/
theorem recommend_before_fit_fails :
    Engine.initial.recommend = Except.error SARError.emptyModel ∧
    ∀ out : List (Nat × Nat × ℚ), Engine.initial.recommend ≠ Except.ok out := by
  refine ⟨rfl, fun out h => ?_⟩
  simp [Engine.recommend, Engine.initial] at h

/-- C9: fitting is deterministic — two runs of the fit pipeline on the same
    training data and configuration yield identical co-occurrence, similarity
    and affinity matrices. -/
theorem fit_deterministic (cfg : SARConfig) (d : List Interaction)
    (r1 r2 : FitResult) (h1 : r1 = fitMatrices cfg d)
    (h2 : r2 = fitMatrices cfg d) :
    r1.C = r2.C ∧ r1.S = r2.S ∧ r1.A = r2.A := by
  subst h1
  subst h2
  exact ⟨rfl, rfl, rfl⟩

/-- Witness for C9 at the concrete configuration `cfg0` and data set `d0`. -/
theorem fit_deterministic_witness :
    (fitMatrices cfg0 d0).C = (fitMatrices cfg0 d0).C ∧
    (fitMatrices cfg0 d0).S = (fitMatrices cfg0 d0).S ∧
    (fitMatrices cfg0 d0).A = (fitMatrices cfg0 d0).A :=
  fit_deterministic cfg0 d0 (fitMatrices cfg0 d0) (fitMatrices cfg0 d0) rfl rfl

end SAR
